import Mathlib

/-!
# Verification of the payment-channel-framework transfer log, plugin core and RPC engine

Shallow embedding of `src/util/backend.js` (`ObjTransferLog`), the plugin core
(`src/lib/plugin.js` and its BTP variants), the BTP RPC engine
(`src/model/rpc.js`) and the `int64` byte codec (`src/util/int64.js`).

Modelling conventions:
* JavaScript numbers that hold balances and amounts are modelled as `Int`
  (the code converts decimal strings with `Number(...)` / unary `+`).
* The transfer-log is modelled in its storeless configuration (`store` is
  `undefined` for the in-memory backend): all `this.store && ...` guards in
  the source evaluate to a falsy value, and the in-memory `cache` object is
  the authoritative state.  The `cache` object is modelled as an association
  list where assignment prepends and `delete` removes every binding of a key.
* A JavaScript `throw` is an `Except.error`; because a throw does not undo
  mutations already performed, each operation returns the (possibly mutated)
  state alongside the `Except` outcome.
* Thrown error values are modelled by inductive types reflecting each throw
  site; `errName` gives the JavaScript `.name` of the thrown object
  (`new Error(...)` has name `"Error"`, the classes of `src/util/errors.js`
  set their own names).
-/

/-! ## Data model: transfers and transfer records -/

/-- State field of a transfer record: `'prepared' | 'fulfilled' | 'cancelled'`. -/
inductive TransferState where
  | prepared
  | fulfilled
  | cancelled
deriving DecidableEq, Repr

/-- A conditional transfer.  `amount` is the numeric value of the decimal
string (`Number(transfer.amount)` in the source); `expiresAt` is the epoch
timestamp in milliseconds (`new Date(expiresAt).getTime()`).  Routing fields
that no modelled operation inspects are omitted. -/
structure Transfer where
  id : String
  amount : Int
  executionCondition : String
  expiresAt : Int
deriving DecidableEq, Repr

/-- The `transferWithInfo` record stored in the log:
`{ transfer, isIncoming, state }` plus the `fulfillment` set on fulfill. -/
structure TransferRecord where
  transfer : Transfer
  isIncoming : Bool
  state : TransferState
  fulfillment : Option String
deriving DecidableEq, Repr

/-- Association-list lookup modelling `this.cache[id]` (first binding wins). -/
def tlLookup (cache : List (String × TransferRecord)) (id : String) :
    Option TransferRecord :=
  match cache with
  | [] => none
  | (k, v) :: rest => if k = id then some v else tlLookup rest id

/-- Modelling `this.cache[id] = rec` (assignment overrides earlier bindings). -/
def tlInsert (cache : List (String × TransferRecord)) (id : String)
    (rec : TransferRecord) : List (String × TransferRecord) :=
  (id, rec) :: cache

/-- Modelling `delete this.cache[id]`. -/
def tlErase (cache : List (String × TransferRecord)) (id : String) :
    List (String × TransferRecord) :=
  cache.filter (fun kv => kv.1 ≠ id)

/-! ## Transfer-log errors -/

/-- The throw sites of `ObjTransferLog`.  Every one of them is a plain
`new Error(...)` in the source. -/
inductive TlError where
  /-- `throw new Error('transfer ... matches the id of ... but not the contents.')` -/
  | duplicateContents
  /-- `throw new Error(balance + ' exceeds greatest allowed value after: ...')` -/
  | exceedsBalance
  /-- `TypeError` from accessing `.isIncoming` of `undefined` (id not cached). -/
  | typeErrorUndefined
  /-- `throw new Error(transferId + ' cannot be fulfilled because it is rejected ...')` -/
  | cannotFulfillCancelled
  /-- `throw new Error(transferId + ' cannot be rejected because it is fulfilled ...')` -/
  | cannotCancelFulfilled
deriving DecidableEq, Repr

/-- The JavaScript `.name` of the thrown object.  All `ObjTransferLog` throw
sites construct plain `Error` objects (and the `TypeError` is named
`TypeError`), so none carries the name of a class from `src/util/errors.js`. -/
def TlError.errName : TlError → String
  | .typeErrorUndefined => "TypeError"
  | _ => "Error"

/-- The `name` set by `class DuplicateIdError extends Error` in
`src/util/errors.js`. -/
def duplicateIdErrorName : String := "DuplicateIdError"

/-- The `namesToCodes` table of `src/model/rpc.js` (`jsErrorToBtpError`):
unknown names fall back to `F00`. -/
def jsErrorNameToCode (name : String) : String :=
  if name = "UnreachableError" then "T00"
  else if name = "NotAcceptedError" then "F00"
  else if name = "InvalidFieldsError" then "F01"
  else if name = "TransferNotFoundError" then "F02"
  else if name = "InvalidFulfillmentError" then "F03"
  else if name = "DuplicateIdError" then "F04"
  else if name = "AlreadyRolledBackError" then "F05"
  else if name = "AlreadyFulfilledError" then "F06"
  else if name = "InsufficientBalanceError" then "F07"
  else "F00"

/-- Returns `true` exactly on `Except.error`. -/
def isErr {ε α : Type} : Except ε α → Bool
  | .error _ => true
  | .ok _ => false

/-! ## ObjTransferLog -/

/-- The in-memory transfer log of `src/util/backend.js` (storeless
configuration).  `balance_if`/`balance_of` are the fulfilled counters,
`balance_i`/`balance_o` the prepared-and-fulfilled counters. -/
structure ObjTransferLog where
  maximum : Int
  minimum : Int
  cache : List (String × TransferRecord)
  balance_if : Int
  balance_i : Int
  balance_o : Int
  balance_of : Int
deriving DecidableEq, Repr

/-- Model of `ObjTransferLog.prepare(transfer, isIncoming)`.

Source order (storeless): build `transferWithInfo` with `state: 'prepared'`;
if the id is not cached, insert it into the cache *before* the balance check
(the race-condition workaround), and `existing` stays falsy because
`this.store && ...` is falsy; if the id is cached, compare with `deepEqual`
on the `transfer` field only and either succeed silently or throw; otherwise
evaluate `isOver(Number(amount) + Number(this[balance]))` and throw without
rolling the cache insertion back, or commit the balance update.  The final
`this.cache[id] = transferWithInfo` re-assignment is a no-op because the
record was already inserted. -/
def ObjTransferLog.prepare (log : ObjTransferLog) (transfer : Transfer)
    (isIncoming : Bool) : Except TlError Unit × ObjTransferLog :=
  let transferWithInfo : TransferRecord :=
    { transfer := transfer, isIncoming := isIncoming,
      state := .prepared, fulfillment := none }
  match tlLookup log.cache transfer.id with
  | some existing =>
    if existing.transfer = transferWithInfo.transfer then
      (Except.ok (), log)
    else
      (Except.error .duplicateContents, log)
  | none =>
    let log1 := { log with
      cache := tlInsert log.cache transfer.id transferWithInfo }
    let otherBalance := if isIncoming then log1.balance_of else log1.balance_if
    let balance := if isIncoming then log1.balance_i else log1.balance_o
    let amount := transfer.amount
    let isOver :=
      if isIncoming then amount + balance - otherBalance > log1.maximum
      else amount + balance - otherBalance > -log1.minimum
    if isOver then
      (Except.error .exceedsBalance, log1)
    else
      let log2 :=
        if isIncoming then { log1 with balance_i := log1.balance_i + amount }
        else { log1 with balance_o := log1.balance_o + amount }
      (Except.ok (), log2)

/-- Model of `ObjTransferLog.fulfill(transferId, fulfillment)`.

Source order: read `this.cache[transferId]` (a cache miss crashes with a
`TypeError` on `.isIncoming`); if `state === 'prepared'` bump the
same-direction *fulfilled* counter; if `state === 'cancelled'` throw; then
mutate the shared record object (`state = 'fulfilled'`, store the
fulfillment) and `delete` it from the cache.  The mutated record object is
returned in the `ok` case since the cache no longer references it. -/
def ObjTransferLog.fulfill (log : ObjTransferLog) (transferId : String)
    (fulfillment : String) : Except TlError TransferRecord × ObjTransferLog :=
  match tlLookup log.cache transferId with
  | none => (Except.error .typeErrorUndefined, log)
  | some transferWithInfo =>
    let log1 :=
      if transferWithInfo.state = .prepared then
        if transferWithInfo.isIncoming then
          { log with balance_if :=
              log.balance_if + transferWithInfo.transfer.amount }
        else
          { log with balance_of :=
              log.balance_of + transferWithInfo.transfer.amount }
      else log
    if transferWithInfo.state = .cancelled then
      (Except.error .cannotFulfillCancelled, log1)
    else
      let updated := { transferWithInfo with
        state := .fulfilled, fulfillment := some fulfillment }
      (Except.ok updated, { log1 with cache := tlErase log1.cache transferId })

/-- Model of `ObjTransferLog.cancel(transferId)`: mirror image of `fulfill`, moving the
*prepared-and-fulfilled* counter down and refusing fulfilled records. -/
def ObjTransferLog.cancel (log : ObjTransferLog) (transferId : String) :
    Except TlError TransferRecord × ObjTransferLog :=
  match tlLookup log.cache transferId with
  | none => (Except.error .typeErrorUndefined, log)
  | some transferWithInfo =>
    let log1 :=
      if transferWithInfo.state = .prepared then
        if transferWithInfo.isIncoming then
          { log with balance_i :=
              log.balance_i - transferWithInfo.transfer.amount }
        else
          { log with balance_o :=
              log.balance_o - transferWithInfo.transfer.amount }
      else log
    if transferWithInfo.state = .fulfilled then
      (Except.error .cannotCancelFulfilled, log1)
    else
      let updated := { transferWithInfo with state := .cancelled }
      (Except.ok updated, { log1 with cache := tlErase log1.cache transferId })

/-- Model of `ObjTransferLog.get(id)`: `this.cache[id] || (this.store && ...)`; in the
storeless configuration the fallback is falsy. -/
def ObjTransferLog.get (log : ObjTransferLog) (id : String) :
    Option TransferRecord :=
  tlLookup log.cache id

/-! ## Plugin core: fulfillCondition / peer-FULFILL handler

`src/lib/plugin.js` (`fulfillCondition` lines 345-381,
`_handleFulfillCondition` lines 383-404).  `now` stands for `Date.now()`;
`fulfillmentValid` is the outcome of `validator.validateFulfillment`
(format check) and `hashMatches` the outcome of the SHA-256 comparison in
`_validateFulfillment` — both external checks carried as booleans.  The
events emitted and RPC calls performed after the transfer-log update occur
only on the success path and are not part of the returned value. -/

/-- Throw sites of the plugin-level fulfill paths. -/
inductive PluginError where
  /-- `validator.validateFulfillment` throws (malformed fulfillment). -/
  | invalidFulfillment
  /-- `TypeError` reading `.state` of `undefined` (unknown transfer id). -/
  | typeErrorUndefined
  /-- `AlreadyRejectedError`: record state is `'cancelled'`. -/
  | alreadyRejectedCancelled
  /-- plain `Error`: wrong direction for this operation. -/
  | wrongDirection
  /-- `AlreadyRejectedError`: `new Date(expiresAt).getTime() < Date.now()`. -/
  | alreadyRejectedExpired
  /-- `NotAcceptedError`: SHA-256 of the fulfillment does not match. -/
  | fulfillmentMismatch
  /-- an error propagated from `transferLog.fulfill`. -/
  | tl (e : TlError)
deriving DecidableEq, Repr

/-- Model of `plugin.fulfillCondition(transferId, fulfillment)` — the incoming
direction (the connection is assumed established). -/
def fulfillCondition (now : Int) (fulfillmentValid hashMatches : Bool)
    (log : ObjTransferLog) (transferId : String) (fulfillment : String) :
    Except PluginError Unit × ObjTransferLog :=
  if !fulfillmentValid then (Except.error .invalidFulfillment, log)
  else
    match log.get transferId with
    | none => (Except.error .typeErrorUndefined, log)
    | some transferInfo =>
      if transferInfo.state = .cancelled then
        (Except.error .alreadyRejectedCancelled, log)
      else if !transferInfo.isIncoming then
        (Except.error .wrongDirection, log)
      else if transferInfo.transfer.expiresAt < now then
        (Except.error .alreadyRejectedExpired, log)
      else if !(fulfillmentValid && hashMatches) then
        (Except.error .fulfillmentMismatch, log)
      else
        match log.fulfill transferId fulfillment with
        | (.error e, log1) => (Except.error (.tl e), log1)
        | (.ok _, log1) => (Except.ok (), log1)

/-- Model of `plugin._handleFulfillCondition({data})` — the peer-FULFILL handler for
the outgoing direction; identical except the direction guard is flipped. -/
def handleFulfillCondition (now : Int) (fulfillmentValid hashMatches : Bool)
    (log : ObjTransferLog) (transferId : String) (fulfillment : String) :
    Except PluginError Unit × ObjTransferLog :=
  if !fulfillmentValid then (Except.error .invalidFulfillment, log)
  else
    match log.get transferId with
    | none => (Except.error .typeErrorUndefined, log)
    | some transferInfo =>
      if transferInfo.state = .cancelled then
        (Except.error .alreadyRejectedCancelled, log)
      else if transferInfo.isIncoming then
        (Except.error .wrongDirection, log)
      else if transferInfo.transfer.expiresAt < now then
        (Except.error .alreadyRejectedExpired, log)
      else if !(fulfillmentValid && hashMatches) then
        (Except.error .fulfillmentMismatch, log)
      else
        match log.fulfill transferId fulfillment with
        | (.error e, log1) => (Except.error (.tl e), log1)
        | (.ok _, log1) => (Except.ok (), log1)

/-! ## Plugin core: expiry -/

/-- Observable actions of `_expireTransfer`: the REJECT sent over RPC with
the serialized ILP error (code, error name, data), and the
`incoming_cancel` / `outgoing_cancel` event. -/
inductive PluginAction where
  | sendReject (transferId : String) (code errorName data : String)
  | emitCancel (isIncoming : Bool) (t : Transfer)
deriving DecidableEq, Repr

/-- Model of `plugin._expireTransfer(transferId)` (`src/lib/plugin.js` lines 514-540
and the BTP variant lines 564-592 of the same class, which agree): re-read
the record; return if missing or no longer `'prepared'`; cancel in the log
(returning if that throws); send a REJECT carrying the ILP error
`code:'R00', name:'Transfer Timed Out', data:'expired'` — unconditionally,
with any send failure swallowed by `.catch(() => ...)` — and emit
`incoming_cancel` or `outgoing_cancel` by direction. -/
def expireTransfer (log : ObjTransferLog) (transferId : String) :
    ObjTransferLog × List PluginAction :=
  match log.get transferId with
  | none => (log, [])
  | some transferInfo =>
    if transferInfo.state ≠ .prepared then (log, [])
    else
      match log.cancel transferId with
      | (.error _, log1) => (log1, [])
      | (.ok _, log1) =>
        (log1,
         [ .sendReject transferId "R00" "Transfer Timed Out" "expired",
           .emitCancel transferInfo.isIncoming transferInfo.transfer ])

/-! ## BTP RPC engine (`src/model/rpc.js`, the variant with `_handleAuth`) -/

/-- BTP packet type constants (`btp-packet`). -/
def TYPE_RESPONSE : Nat := 1
def TYPE_ERROR : Nat := 2
def TYPE_PREPARE : Nat := 3
def TYPE_FULFILL : Nat := 4
def TYPE_REJECT : Nat := 5
def TYPE_MESSAGE : Nat := 6

/-- BTP content-type constants. -/
def MIME_APPLICATION_OCTET_STREAM : Nat := 0
def MIME_TEXT_PLAIN_UTF8 : Nat := 1
def MIME_APPLICATION_JSON : Nat := 2

/-- One sub-protocol part of a BTP message; `data` is the byte payload viewed
through `.toString()`. -/
structure ProtocolData where
  protocolName : String
  contentType : Nat
  data : String
deriving DecidableEq, Repr

/-- What `_handleAuth` sends back on the socket (`crash` marks the uncaught
`TypeError` paths, where the socket message handler logs and replies with
nothing). -/
inductive AuthResult where
  | errorF01 (message : String)
  | errorF00
  | response
  | crash
deriving DecidableEq, Repr

/-- Per-socket slot pushed by `addSocket`:
`{ socket, authorized: isClient }`; `_handleAuth` later sets a *different*
field, `authenticated`. -/
structure SocketData where
  authorized : Bool
  authenticated : Bool
deriving DecidableEq, Repr

/-- Model of `BtpRpc.addSocket(socket, authUsername, authToken)`: the slot is pushed
with `authorized: isClient` where `isClient = Boolean(authToken)`. -/
def addSocket (isClient : Bool) : SocketData :=
  { authorized := isClient, authenticated := false }

/-- Model of `BtpRpc._handleAuth(socketIndex, {type, requestId, data})`, lines
399-469.  Checks in source order: packet type must be `MESSAGE`; the first
sub-protocol must be `auth` (an empty part list crashes on
`protocolData[0].protocolName`); an `auth_token` part must exist (the second
presence check mistakenly re-tests `authToken`, so a missing `auth_username`
crashes later on `authUsername.contentType`); then
`isValidAndAuthorized = authUsername.contentType === TEXT_PLAIN &&
authToken.data.toString() === '' && authToken.contentType === TEXT_PLAIN &&
authToken.data.toString() === this._incomingAuthToken`.  Failure sends an
`F00 NotAcceptedError`; success sends an empty RESPONSE and sets
`socketData.authenticated = true` (not `authorized`). -/
def handleAuth (incomingAuthToken : String) (sd : SocketData)
    (type : Nat) (protocolData : List ProtocolData) :
    SocketData × AuthResult :=
  if type ≠ TYPE_MESSAGE then
    (sd, .errorF01 "invalid method on unauthenticated socket")
  else
    match protocolData with
    | [] => (sd, .crash)
    | p0 :: _ =>
      if p0.protocolName ≠ "auth" then
        (sd, .errorF01 "auth must be primary protocol on unauthenticated message")
      else
        match (protocolData.filter
            (fun p => p.protocolName = "auth_token")).head? with
        | none => (sd, .errorF01 "missing auth_token secondary protocol")
        | some authToken =>
          match (protocolData.filter
              (fun p => p.protocolName = "auth_username")).head? with
          | none => (sd, .crash)
          | some authUsername =>
            let isValidAndAuthorized :=
              authUsername.contentType = MIME_TEXT_PLAIN_UTF8 ∧
              authToken.data = "" ∧
              authToken.contentType = MIME_TEXT_PLAIN_UTF8 ∧
              authToken.data = incomingAuthToken
            if isValidAndAuthorized then
              ({ sd with authenticated := true }, .response)
            else
              (sd, .errorF00)

/-- Where `handleMessage` routes a packet. -/
inductive Dispatch where
  /-- the packet was consumed by `_handleAuth` (socket not `authorized`). -/
  | authReply (r : AuthResult)
  /-- `RESPONSE | ERROR`: `this.emit('_' + requestId, type, data)`. -/
  | toPending (requestId : Nat)
  /-- `PREPARE | FULFILL | REJECT | MESSAGE`: `this._handlers[type]` then a
  RESPONSE (or a mapped ERROR) for the same `requestId`. -/
  | toHandler (type : Nat)
  /-- `default: throw new Error(type + ' is not a valid btp packet type')`. -/
  | invalidType (type : Nat)
deriving DecidableEq, Repr

/-- Model of `BtpRpc.handleMessage(socketIndex, message)`, lines 347-395: packets on a
slot whose `authorized` field is false go to `_handleAuth`; otherwise
`RESPONSE`/`ERROR` are emitted to the pending-request listener keyed by
`requestId` and the four request types go to the registered handlers. -/
def handleMessage (incomingAuthToken : String) (sd : SocketData)
    (type : Nat) (requestId : Nat) (protocolData : List ProtocolData) :
    SocketData × Dispatch :=
  if !sd.authorized then
    let (sd1, r) := handleAuth incomingAuthToken sd type protocolData
    (sd1, .authReply r)
  else if type = TYPE_RESPONSE ∨ type = TYPE_ERROR then
    (sd, .toPending requestId)
  else if type = TYPE_PREPARE ∨ type = TYPE_FULFILL ∨
      type = TYPE_REJECT ∨ type = TYPE_MESSAGE then
    (sd, .toHandler type)
  else
    (sd, .invalidType type)

/-! ## Pending-request correlation (`BtpRpc._call`, lines 471-514)

`_call` registers `this.once('_' + id, callback)` — a listener consumed by
the first `RESPONSE`/`ERROR` emitted for that `requestId` — and a
`setTimeout` that removes the listener and rejects; `Promise.race` settles
with whichever branch settles first, and settling is permanent.  The model
is the event-side view of one pending call: `listenerActive` is the
presence of the once-listener, `timerActive` whether the timeout may still
fire, and `settled` the (permanent) resolution of the raced promise. -/

/-- Events that can reach one pending call: `handleMessage` emitting a
`RESPONSE` or `ERROR` for some `requestId`, or its own timeout firing. -/
inductive RpcEvent where
  | deliverResponse (requestId : Nat)
  | deliverError (requestId : Nat)
  | timeoutFire
deriving DecidableEq, Repr

/-- How the caller's promise got settled. -/
inductive CallOutcome where
  | response
  | errored
  | timedOut
deriving DecidableEq, Repr

/-- One in-flight `_call`. -/
structure PendingCall where
  id : Nat
  listenerActive : Bool
  timerActive : Bool
  settled : Option CallOutcome
deriving DecidableEq, Repr

/-- The state right after `_call` registered callback and timeout. -/
def initCall (id : Nat) : PendingCall :=
  { id := id, listenerActive := true, timerActive := true, settled := none }

/-- One event hitting the pending call.  A matching emit consumes the
once-listener and settles the race if it is not yet settled; an emit with no
listener (or another id) is dropped; the timeout removes the listener and
settles the race with rejection if it is not yet settled. -/
def rpcStep (c : PendingCall) (e : RpcEvent) : PendingCall :=
  match e with
  | .deliverResponse rid =>
    if rid = c.id ∧ c.listenerActive then
      { c with listenerActive := false,
               settled := if c.settled.isNone then some .response else c.settled }
    else c
  | .deliverError rid =>
    if rid = c.id ∧ c.listenerActive then
      { c with listenerActive := false,
               settled := if c.settled.isNone then some .errored else c.settled }
    else c
  | .timeoutFire =>
    if c.timerActive then
      { c with timerActive := false, listenerActive := false,
               settled := if c.settled.isNone then some .timedOut else c.settled }
    else c

/-- Run a whole event trace against the pending call. -/
def rpcRun (c : PendingCall) (trace : List RpcEvent) : PendingCall :=
  trace.foldl rpcStep c

/-- The events that can settle the call registered under `id`. -/
def isSettler (id : Nat) (e : RpcEvent) : Bool :=
  match e with
  | .deliverResponse rid => rid == id
  | .deliverError rid => rid == id
  | .timeoutFire => true

/-- The outcome produced by a settling event. -/
def outcomeOf (e : RpcEvent) : CallOutcome :=
  match e with
  | .deliverResponse _ => .response
  | .deliverError _ => .errored
  | .timeoutFire => .timedOut

/-! ## int64 codec (`src/util/int64.js`, `toBuffer`) -/

/-- The 8-byte big-endian base-256 digits of `n` (faithful for `n < 2^64`). -/
def be8 (n : Nat) : List Nat :=
  [ n / 72057594037927936 % 256,
    n / 281474976710656 % 256,
    n / 1099511627776 % 256,
    n / 4294967296 % 256,
    n / 16777216 % 256,
    n / 65536 % 256,
    n / 256 % 256,
    n % 256 ]

/-- The bytes of `Buffer.from(hex, 'hex')` where
`hex = num.toString(16)` padded on the left to even length: the minimal
big-endian base-256 digits of `num` — one `0` byte for `num = 0`, otherwise
the 8-byte encoding with its leading zero bytes removed (faithful for
`num < 2^64`). -/
def minBytes (n : Nat) : List Nat :=
  if n = 0 then [0] else (be8 n).dropWhile (fun b => b == 0)

/-- Model of `int64.toBuffer(str)` on the integer value of the decimal string (the
source parses with `parseInt`, which is exact below `2^53`): start from
eight `0` bytes, or eight `255` bytes when the string begins with `'-'`;
take the bytes of the absolute value's hex string; write them at offset
`8 - bytes.length`, complementing each byte as `255 - b` in the negative
case. -/
def int64ToBuffer (s : Int) : List Nat :=
  let negative := s < 0
  let num := s.natAbs
  let bytes := minBytes num
  let offset := 8 - bytes.length
  List.replicate offset (if negative then 255 else 0) ++
    bytes.map (fun b => if negative then 255 - b else b)

/-- The encoding the spec claims: the 8-byte big-endian two's-complement
(signed) representation of `s`, i.e. the base-256 digits of `s mod 2^64`. -/
def twosComplementBE64 (s : Int) : List Nat :=
  be8 (s % 18446744073709551616).toNat

/-! ## Characterization lemmas for the transfer log -/

/-- The `transferWithInfo` record that `prepare` builds. -/
def preparedRec (t : Transfer) (inc : Bool) : TransferRecord :=
  { transfer := t, isIncoming := inc, state := .prepared, fulfillment := none }

theorem tlLookup_insert_self (cache : List (String × TransferRecord))
    (id : String) (rec : TransferRecord) :
    tlLookup (tlInsert cache id rec) id = some rec := by
  simp [tlLookup, tlInsert]

theorem prepare_existing (log : ObjTransferLog) (t : Transfer) (inc : Bool)
    (rec : TransferRecord) (hrec : tlLookup log.cache t.id = some rec) :
    log.prepare t inc =
      if rec.transfer = t then (Except.ok (), log)
      else (Except.error .duplicateContents, log) := by
  unfold ObjTransferLog.prepare
  rw [hrec]

theorem prepare_fresh_incoming (log : ObjTransferLog) (t : Transfer)
    (hfresh : tlLookup log.cache t.id = none) :
    log.prepare t true =
      if t.amount + log.balance_i - log.balance_of > log.maximum then
        (Except.error .exceedsBalance,
         { log with cache := tlInsert log.cache t.id (preparedRec t true) })
      else
        (Except.ok (),
         { log with cache := tlInsert log.cache t.id (preparedRec t true),
                    balance_i := log.balance_i + t.amount }) := by
  unfold ObjTransferLog.prepare
  rw [hfresh]
  simp only [if_true, Bool.true_eq_false]
  rfl

theorem prepare_fresh_outgoing (log : ObjTransferLog) (t : Transfer)
    (hfresh : tlLookup log.cache t.id = none) :
    log.prepare t false =
      if t.amount + log.balance_o - log.balance_if > -log.minimum then
        (Except.error .exceedsBalance,
         { log with cache := tlInsert log.cache t.id (preparedRec t false) })
      else
        (Except.ok (),
         { log with cache := tlInsert log.cache t.id (preparedRec t false),
                    balance_o := log.balance_o + t.amount }) := by
  unfold ObjTransferLog.prepare
  rw [hfresh]
  rfl

/-! ## Claim C1 -/

/-- C1, as stated, is false at this input: with
`t = ⟨"t1", 5, "c", 1000⟩` already recorded, a second prepare whose contents
differ (amount `7`) does fail, but the thrown value is a plain `Error`
(`.name = "Error"`, mapped to BTP code `F00`), not a `DuplicateIdError`
(`.name = "DuplicateIdError"`, which would map to `F04`): that class is
defined in `src/util/errors.js` but never thrown by `prepare`. -/
theorem c1_counterexample_plain_error_not_duplicateIdError :
    (({ maximum := 10, minimum := -10,
        cache := [("t1", preparedRec ⟨"t1", 5, "c", 1000⟩ true)],
        balance_if := 0, balance_i := 5, balance_o := 0,
        balance_of := 0 : ObjTransferLog }).prepare ⟨"t1", 7, "c", 1000⟩ true).1 =
      Except.error TlError.duplicateContents ∧
    TlError.errName .duplicateContents = "Error" ∧
    TlError.errName .duplicateContents ≠ duplicateIdErrorName ∧
    jsErrorNameToCode (TlError.errName .duplicateContents) = "F00" := by
  refine ⟨?_, rfl, by decide, rfl⟩
  rfl

/-- C1 (amended): for a transfer `t` already recorded in the log, a second
`prepare(t', isIncoming)` with `t'.id = t.id` succeeds changing no state when
`t'` equals `t`, and when the contents differ it fails with a plain `Error`
(message `'... matches the id of ... but not the contents.'`, name `"Error"`,
mapped to BTP code `F00`) — not with `DuplicateIdError`. -/
theorem c1_amended_idempotent_prepare (log : ObjTransferLog)
    (t t' : Transfer) (rec : TransferRecord) (inc : Bool)
    (hrec : tlLookup log.cache t.id = some rec) (ht : rec.transfer = t)
    (hid : t'.id = t.id) :
    (t' = t → log.prepare t' inc = (Except.ok (), log)) ∧
    (t' ≠ t →
      log.prepare t' inc = (Except.error .duplicateContents, log) ∧
      TlError.errName .duplicateContents = "Error" ∧
      TlError.errName .duplicateContents ≠ duplicateIdErrorName) := by
  have hrec' : tlLookup log.cache t'.id = some rec := by rw [hid]; exact hrec
  have hprep := prepare_existing log t' inc rec hrec'
  constructor
  · intro heq
    rw [hprep, ht, if_pos heq.symm]
  · intro hne
    rw [hprep, ht, if_neg (fun h => hne h.symm)]
    exact ⟨rfl, rfl, by decide⟩

/-- Witness for C1 (amended): both branches at concrete inputs. -/
theorem c1_witness :
    (({ maximum := 10, minimum := -10,
        cache := [("t1", preparedRec ⟨"t1", 5, "c", 1000⟩ true)],
        balance_if := 0, balance_i := 5, balance_o := 0,
        balance_of := 0 : ObjTransferLog }).prepare ⟨"t1", 5, "c", 1000⟩ true =
      (Except.ok (),
       { maximum := 10, minimum := -10,
         cache := [("t1", preparedRec ⟨"t1", 5, "c", 1000⟩ true)],
         balance_if := 0, balance_i := 5, balance_o := 0,
         balance_of := 0 : ObjTransferLog })) ∧
    (({ maximum := 10, minimum := -10,
        cache := [("t1", preparedRec ⟨"t1", 5, "c", 1000⟩ true)],
        balance_if := 0, balance_i := 5, balance_o := 0,
        balance_of := 0 : ObjTransferLog }).prepare ⟨"t1", 7, "c", 9⟩ true).1 =
      Except.error .duplicateContents := by
  constructor
  · exact (c1_amended_idempotent_prepare _ ⟨"t1", 5, "c", 1000⟩
      ⟨"t1", 5, "c", 1000⟩ (preparedRec ⟨"t1", 5, "c", 1000⟩ true) true
      (by decide) (by decide) (by decide)).1 rfl
  · exact congrArg Prod.fst
      (((c1_amended_idempotent_prepare _ ⟨"t1", 5, "c", 1000⟩
        ⟨"t1", 7, "c", 9⟩ (preparedRec ⟨"t1", 5, "c", 1000⟩ true) true
        (by decide) (by decide) (by decide)).2 (by decide)).1)

/-! ## Claim C2 -/

/-- C2: for a transfer with non-negative amount and fresh id,
`prepare(t, true)` is rejected iff
`balance_i + amount - balance_of > maximum`, `prepare(t, false)` is rejected
iff `balance_o + amount - balance_if > -minimum`; otherwise the directional
prepared-and-fulfilled counter grows by the amount, the other three counters
are untouched and the record is inserted with state `'prepared'`. -/
theorem c2_prepare_balance_bounds (log : ObjTransferLog) (t : Transfer)
    (hfresh : tlLookup log.cache t.id = none) (hamt : 0 ≤ t.amount) :
    (isErr (log.prepare t true).1 = true ↔
       log.balance_i + t.amount - log.balance_of > log.maximum) ∧
    (isErr (log.prepare t false).1 = true ↔
       log.balance_o + t.amount - log.balance_if > -log.minimum) ∧
    (¬(log.balance_i + t.amount - log.balance_of > log.maximum) →
       (log.prepare t true).2.balance_i = log.balance_i + t.amount ∧
       (log.prepare t true).2.balance_o = log.balance_o ∧
       (log.prepare t true).2.balance_if = log.balance_if ∧
       (log.prepare t true).2.balance_of = log.balance_of ∧
       tlLookup (log.prepare t true).2.cache t.id = some (preparedRec t true)) ∧
    (¬(log.balance_o + t.amount - log.balance_if > -log.minimum) →
       (log.prepare t false).2.balance_o = log.balance_o + t.amount ∧
       (log.prepare t false).2.balance_i = log.balance_i ∧
       (log.prepare t false).2.balance_if = log.balance_if ∧
       (log.prepare t false).2.balance_of = log.balance_of ∧
       tlLookup (log.prepare t false).2.cache t.id = some (preparedRec t false)) := by
  rw [prepare_fresh_incoming log t hfresh, prepare_fresh_outgoing log t hfresh]
  have hcomm1 : t.amount + log.balance_i - log.balance_of > log.maximum ↔
      log.balance_i + t.amount - log.balance_of > log.maximum := by constructor <;> intro <;> omega
  have hcomm2 : t.amount + log.balance_o - log.balance_if > -log.minimum ↔
      log.balance_o + t.amount - log.balance_if > -log.minimum := by constructor <;> intro <;> omega
  refine ⟨?_, ?_, ?_, ?_⟩
  · constructor
    · intro hiserr
      by_contra hc
      rw [if_neg (by omega)] at hiserr
      simp [isErr] at hiserr
    · intro hcond
      rw [if_pos (by omega)]
      rfl
  · constructor
    · intro hiserr
      by_contra hc
      rw [if_neg (by omega)] at hiserr
      simp [isErr] at hiserr
    · intro hcond
      rw [if_pos (by omega)]
      rfl
  · intro hok
    rw [if_neg (by omega)]
    exact ⟨rfl, rfl, rfl, rfl, tlLookup_insert_self _ _ _⟩
  · intro hok
    rw [if_neg (by omega)]
    exact ⟨rfl, rfl, rfl, rfl, tlLookup_insert_self _ _ _⟩

/-- Concrete log and transfer used by witnesses: empty cache,
`maximum = 10`, `minimum = -10`, amount `5`. -/
def logW2 : ObjTransferLog :=
  { maximum := 10, minimum := -10, cache := [], balance_if := 0,
    balance_i := 0, balance_o := 0, balance_of := 0 }

def tW2 : Transfer :=
  { id := "w2", amount := 5, executionCondition := "c", expiresAt := 1 }

/-- Witness for C2: amount `5`, `maximum = 10`, empty log — the incoming
prepare is accepted and moves `balance_i` to `5`. -/
theorem c2_witness :
    isErr (logW2.prepare tW2 true).1 = false ∧
    (logW2.prepare tW2 true).2.balance_i = 5 := by
  have h := c2_prepare_balance_bounds logW2 tW2 (by decide) (by decide)
  refine ⟨?_, ?_⟩
  · cases hb : isErr (logW2.prepare tW2 true).1 with
    | true => exact absurd (h.1.mp hb) (by decide)
    | false => rfl
  · rw [(h.2.2.1 (by decide)).1]
    decide

/-! ## Claim C10 -/

/-- C10: when a fresh-id `prepare` fails its balance-bound check, the four
balance counters are unchanged but the record stays in the cache with state
`'prepared'`: `get` returns it, and a later `prepare` with the same id but
different contents fails as a duplicate. -/
theorem c10_rejected_prepare_leaves_record (log : ObjTransferLog)
    (t : Transfer) (inc : Bool)
    (hfresh : tlLookup log.cache t.id = none)
    (hover : if inc then log.balance_i + t.amount - log.balance_of > log.maximum
             else log.balance_o + t.amount - log.balance_if > -log.minimum) :
    (log.prepare t inc).1 = Except.error .exceedsBalance ∧
    (log.prepare t inc).2.balance_i = log.balance_i ∧
    (log.prepare t inc).2.balance_o = log.balance_o ∧
    (log.prepare t inc).2.balance_if = log.balance_if ∧
    (log.prepare t inc).2.balance_of = log.balance_of ∧
    (log.prepare t inc).2.get t.id = some (preparedRec t inc) ∧
    (∀ t' : Transfer, t'.id = t.id → t' ≠ t → ∀ inc' : Bool,
      ((log.prepare t inc).2.prepare t' inc').1 =
        Except.error .duplicateContents) := by
  have hmain : log.prepare t inc =
      (Except.error .exceedsBalance,
       { log with cache := tlInsert log.cache t.id (preparedRec t inc) }) := by
    cases inc
    · simp only [Bool.false_eq_true, if_false] at hover
      rw [prepare_fresh_outgoing log t hfresh, if_pos (by omega)]
    · simp only [if_pos] at hover
      rw [prepare_fresh_incoming log t hfresh, if_pos (by omega)]
  rw [hmain]
  refine ⟨rfl, rfl, rfl, rfl, rfl, ?_, ?_⟩
  · exact tlLookup_insert_self _ _ _
  · intro t' hid hne inc'
    have hrec : tlLookup
        ({ log with cache := tlInsert log.cache t.id (preparedRec t inc) }).cache
        t'.id = some (preparedRec t inc) := by
      rw [hid]
      exact tlLookup_insert_self _ _ _
    rw [prepare_existing _ t' inc' _ hrec,
      if_neg (by simpa [preparedRec] using fun h => hne h.symm)]

/-- Witness for C10: amount `100` against `maximum = 10` — the incoming
prepare is rejected, counters stay `0`, the record stays cached as
`'prepared'`, and a different-contents retry under the same id fails as a
duplicate. -/
def tW10 : Transfer :=
  { id := "w10", amount := 100, executionCondition := "c", expiresAt := 1 }

theorem c10_witness :
    (logW2.prepare tW10 true).1 = Except.error .exceedsBalance ∧
    (logW2.prepare tW10 true).2.balance_i = 0 ∧
    (logW2.prepare tW10 true).2.get tW10.id = some (preparedRec tW10 true) ∧
    ((logW2.prepare tW10 true).2.prepare
        { id := "w10", amount := 1, executionCondition := "c", expiresAt := 1 }
        true).1 = Except.error .duplicateContents := by
  have h := c10_rejected_prepare_leaves_record logW2 tW10 true
    (by decide) (by decide)
  exact ⟨h.1, h.2.1.trans (by decide), h.2.2.2.2.2.1,
    h.2.2.2.2.2.2 _ (by decide) (by decide) true⟩

/-! ## Claim C3 -/

/-- C3, as stated, is false at this input: with the record for `"t1"` cached
in state `'fulfilled'`, `fulfill` does not fail — it succeeds again (the
source only throws for `'cancelled'`), re-storing a fulfillment without
touching any counter. -/
def logC3 : ObjTransferLog :=
  { maximum := 10, minimum := -10,
    cache := [("t1",
      { transfer := { id := "t1", amount := 5, executionCondition := "c", expiresAt := 1 },
        isIncoming := true, state := .fulfilled, fulfillment := some "F0" })],
    balance_if := 5, balance_i := 5, balance_o := 0, balance_of := 0 }

theorem c3_counterexample_fulfilled_record_refulfills :
    (tlLookup logC3.cache "t1").map TransferRecord.state = some .fulfilled ∧
    isErr (logC3.fulfill "t1" "F1").1 = false ∧
    (logC3.fulfill "t1" "F1").2.balance_if = logC3.balance_if := by
  refine ⟨rfl, rfl, rfl⟩

/-- C3 (amended): `transferLog.fulfill(id, fulfillment)` fails only when the
cached record's state is `'cancelled'` (and crashes with a `TypeError` when
no record is cached).  When the state is `'prepared'` it increments the
same-direction fulfilled counter by the amount, returns the record updated to
`state = 'fulfilled'` with the fulfillment stored, and drops the record from
the cache.  When the state is already `'fulfilled'` it succeeds the same way
but increments no counter. -/
theorem c3_amended_fulfill_behavior (log : ObjTransferLog) (id f : String)
    (rec : TransferRecord) (hrec : tlLookup log.cache id = some rec) :
    (rec.state = .cancelled →
      log.fulfill id f = (Except.error .cannotFulfillCancelled, log)) ∧
    (rec.state = .prepared →
      (log.fulfill id f).1 =
        Except.ok { rec with state := .fulfilled, fulfillment := some f } ∧
      (rec.isIncoming = true →
        (log.fulfill id f).2.balance_if = log.balance_if + rec.transfer.amount ∧
        (log.fulfill id f).2.balance_of = log.balance_of) ∧
      (rec.isIncoming = false →
        (log.fulfill id f).2.balance_of = log.balance_of + rec.transfer.amount ∧
        (log.fulfill id f).2.balance_if = log.balance_if) ∧
      (log.fulfill id f).2.cache = tlErase log.cache id) ∧
    (rec.state = .fulfilled →
      log.fulfill id f =
        (Except.ok { rec with state := .fulfilled, fulfillment := some f },
         { log with cache := tlErase log.cache id })) := by
  simp only [ObjTransferLog.fulfill, hrec]
  refine ⟨?_, ?_, ?_⟩
  · intro hst
    rw [hst]
    rfl
  · intro hst
    rw [hst]
    cases hdir : rec.isIncoming
    · exact ⟨rfl, fun h => by simp at h, fun _ => ⟨rfl, rfl⟩, rfl⟩
    · exact ⟨rfl, fun _ => ⟨rfl, rfl⟩, fun h => by simp at h, rfl⟩
  · intro hst
    rw [hst]
    rfl

/-- Witness for C3 (amended): the `'prepared'` branch at a concrete input. -/
theorem c3_witness :
    ((logW2.prepare tW2 true).2.fulfill "w2" "F").1 =
      Except.ok { transfer := tW2, isIncoming := true,
                  state := .fulfilled, fulfillment := some "F" } ∧
    ((logW2.prepare tW2 true).2.fulfill "w2" "F").2.balance_if = 5 := by
  have h := c3_amended_fulfill_behavior (logW2.prepare tW2 true).2 "w2" "F"
    (preparedRec tW2 true) (by decide)
  have h2 := h.2.1 rfl
  refine ⟨h2.1, ?_⟩
  rw [(h2.2.1 rfl).1]
  decide

/-! ## Claim C4 -/

/-- C4: for a record in state `'prepared'` whose `expiresAt` lies before the
current time, neither `fulfillCondition` nor the peer-FULFILL handler
transitions it to `'fulfilled'`: whatever the direction and the outcome of
the external validation checks, both operations throw and leave the log —
and hence the record's state — unchanged. -/
theorem c4_expired_prepared_never_fulfilled (now : Int)
    (fulfillmentValid hashMatches : Bool) (log : ObjTransferLog)
    (id f : String) (rec : TransferRecord)
    (hrec : log.get id = some rec) (hst : rec.state = .prepared)
    (hexp : rec.transfer.expiresAt < now) :
    isErr (fulfillCondition now fulfillmentValid hashMatches log id f).1 = true ∧
    (fulfillCondition now fulfillmentValid hashMatches log id f).2 = log ∧
    isErr (handleFulfillCondition now fulfillmentValid hashMatches log id f).1 = true ∧
    (handleFulfillCondition now fulfillmentValid hashMatches log id f).2 = log := by
  cases fulfillmentValid
  · exact ⟨rfl, rfl, rfl, rfl⟩
  · cases hdir : rec.isIncoming <;>
      simp [fulfillCondition, handleFulfillCondition, isErr, hrec, hst, hexp, hdir]

/-- Witness for C4: a prepared incoming transfer that expired at `t = 50`,
checked at `now = 100`. -/
def logC4 : ObjTransferLog :=
  { maximum := 10, minimum := -10,
    cache := [("t4", preparedRec ⟨"t4", 5, "c", 50⟩ true)],
    balance_if := 0, balance_i := 5, balance_o := 0, balance_of := 0 }

theorem c4_witness :
    isErr (fulfillCondition 100 true true logC4 "t4" "F").1 = true ∧
    (fulfillCondition 100 true true logC4 "t4" "F").2 = logC4 ∧
    isErr (handleFulfillCondition 100 true true logC4 "t4" "F").1 = true ∧
    (handleFulfillCondition 100 true true logC4 "t4" "F").2 = logC4 :=
  c4_expired_prepared_never_fulfilled 100 true true logC4 "t4" "F"
    (preparedRec ⟨"t4", 5, "c", 50⟩ true) (by decide) (by decide) (by decide)

/-! ## Claim C8 -/

/-- C8, as stated, is false at this input: the expiry of an *incoming*
prepared transfer also sends the REJECT carrying the
`R00 / 'Transfer Timed Out' / 'expired'` error — the source sends it
unconditionally, not only for outgoing transfers. -/
def tC8 : Transfer := { id := "t8", amount := 5, executionCondition := "c", expiresAt := 50 }

def logC8 : ObjTransferLog :=
  { maximum := 10, minimum := -10,
    cache := [("t8", preparedRec tC8 true)],
    balance_if := 0, balance_i := 5, balance_o := 0, balance_of := 0 }

theorem c8_counterexample_reject_sent_for_incoming :
    (logC8.get "t8").map TransferRecord.isIncoming = some true ∧
    (logC8.get "t8").map TransferRecord.state = some .prepared ∧
    (expireTransfer logC8 "t8").2 =
      [ .sendReject "t8" "R00" "Transfer Timed Out" "expired",
        .emitCancel true tC8 ] := by
  exact ⟨rfl, rfl, rfl⟩

/-- C8 (amended): when the expiry timer fires, `_expireTransfer` re-checks
that the record is still `'prepared'` (doing nothing when it is missing or
in another state), cancels it in the log (removing it from the cache and
rolling the directional prepared-and-fulfilled counter back), sends a REJECT
carrying the ILP error `code:'R00', name:'Transfer Timed Out',
data:'expired'` regardless of the transfer's direction, and emits
`incoming_cancel` or `outgoing_cancel` according to the direction. -/
theorem c8_amended_expire_transfer (log : ObjTransferLog) (id : String) :
    (log.get id = none → expireTransfer log id = (log, [])) ∧
    (∀ rec : TransferRecord, log.get id = some rec → rec.state ≠ .prepared →
      expireTransfer log id = (log, [])) ∧
    (∀ rec : TransferRecord, log.get id = some rec → rec.state = .prepared →
      (expireTransfer log id).2 =
        [ .sendReject id "R00" "Transfer Timed Out" "expired",
          .emitCancel rec.isIncoming rec.transfer ] ∧
      (expireTransfer log id).1.cache = tlErase log.cache id ∧
      (rec.isIncoming = true →
        (expireTransfer log id).1.balance_i = log.balance_i - rec.transfer.amount ∧
        (expireTransfer log id).1.balance_o = log.balance_o) ∧
      (rec.isIncoming = false →
        (expireTransfer log id).1.balance_o = log.balance_o - rec.transfer.amount ∧
        (expireTransfer log id).1.balance_i = log.balance_i) ∧
      (expireTransfer log id).1.balance_if = log.balance_if ∧
      (expireTransfer log id).1.balance_of = log.balance_of) := by
  refine ⟨?_, ?_, ?_⟩
  · intro hnone
    simp only [expireTransfer, hnone]
  · intro rec hrec hst
    simp only [expireTransfer, hrec]
    rw [if_pos hst]
  · intro rec hrec hst
    have hrec' : tlLookup log.cache id = some rec := hrec
    have hcancel : log.cancel id =
        (Except.ok { rec with state := .cancelled },
         { (if rec.isIncoming then
              { log with balance_i := log.balance_i - rec.transfer.amount }
            else
              { log with balance_o := log.balance_o - rec.transfer.amount }) with
           cache := tlErase log.cache id }) := by
      simp only [ObjTransferLog.cancel, hrec', hst]
      cases rec.isIncoming <;> rfl
    simp only [expireTransfer, hrec, hcancel]
    rw [if_neg (fun h => h hst)]
    cases hdir : rec.isIncoming
    · exact ⟨rfl, rfl, fun h => by simp at h, fun _ => ⟨rfl, rfl⟩, rfl, rfl⟩
    · exact ⟨rfl, rfl, fun _ => ⟨rfl, rfl⟩, fun h => by simp at h, rfl, rfl⟩

/-- Witness for C8 (amended): the prepared branch at a concrete input
(an outgoing transfer this time). -/
def logC8b : ObjTransferLog :=
  { maximum := 10, minimum := -10,
    cache := [("t8", preparedRec tC8 false)],
    balance_if := 0, balance_i := 0, balance_o := 5, balance_of := 0 }

theorem c8_witness :
    (expireTransfer logC8b "t8").2 =
      [ .sendReject "t8" "R00" "Transfer Timed Out" "expired",
        .emitCancel false tC8 ] ∧
    (expireTransfer logC8b "t8").1.balance_o = 0 := by
  have h := (c8_amended_expire_transfer logC8b "t8").2.2
    (preparedRec tC8 false) (by decide) rfl
  refine ⟨h.1, ?_⟩
  rw [(h.2.2.2.1 rfl).1]
  decide

/-! ## Claim C5 -/

/-- C5 is a bug in the code: with the incoming auth token configured as
`"secret"`, a first MESSAGE whose primary sub-protocol is `auth` with
text/plain `auth_username` and `auth_token` parts, presenting exactly the
configured token, is answered with an `F00 NotAcceptedError` instead of the
empty RESPONSE — the conjunction in `_handleAuth` also demands
`authToken.data.toString() === ''`, so equality with the configured token can
never suffice on its own (the spec flags this line as a typo). -/
theorem c5_auth_rejects_matching_token :
    handleAuth "secret" (addSocket false) TYPE_MESSAGE
      [ { protocolName := "auth",
          contentType := MIME_APPLICATION_OCTET_STREAM, data := "" },
        { protocolName := "auth_username",
          contentType := MIME_TEXT_PLAIN_UTF8, data := "user" },
        { protocolName := "auth_token",
          contentType := MIME_TEXT_PLAIN_UTF8, data := "secret" } ] =
      (addSocket false, .errorF00) ∧
    ("secret" : String) = "secret" := by
  exact ⟨by decide, rfl⟩

/-! ## Claim C6 -/

/-- C6 is a bug in the code: on a server-accepted socket (slot pushed with
`authorized: false`), a successful auth handshake (only reachable when the
configured incoming token is the empty string, because of the C5 typo) sets
`socketData.authenticated = true` and answers with the empty RESPONSE — but
`handleMessage` gates dispatch on the *`authorized`* field, which nothing
ever sets for a server-accepted socket.  A subsequent PREPARE is therefore
routed back into `_handleAuth` (which answers `F01`) instead of being
dispatched to the registered PREPARE handler. -/
theorem c6_authenticated_socket_not_dispatched :
    handleMessage "" (addSocket false) TYPE_MESSAGE 1
      [ { protocolName := "auth",
          contentType := MIME_APPLICATION_OCTET_STREAM, data := "" },
        { protocolName := "auth_username",
          contentType := MIME_TEXT_PLAIN_UTF8, data := "user" },
        { protocolName := "auth_token",
          contentType := MIME_TEXT_PLAIN_UTF8, data := "" } ] =
      ({ authorized := false, authenticated := true }, .authReply .response) ∧
    (handleMessage ""
        { authorized := false, authenticated := true } TYPE_PREPARE 2 []).2 =
      Dispatch.authReply (.errorF01 "invalid method on unauthenticated socket") ∧
    (∀ t : Nat,
      (handleMessage ""
          { authorized := false, authenticated := true } TYPE_PREPARE 2 []).2 ≠
        Dispatch.toHandler t) := by
  refine ⟨by decide, by decide, ?_⟩
  intro t
  simp [handleMessage, handleAuth, addSocket, TYPE_PREPARE, TYPE_MESSAGE]

/-! ## Claim C7 -/

theorem rpcStep_settled_stable (c : PendingCall) (e : RpcEvent)
    (o : CallOutcome) (h : c.settled = some o) :
    (rpcStep c e).settled = some o := by
  cases e <;> simp only [rpcStep] <;> split <;> simp [h]

theorem rpcRun_settled_stable (trace : List RpcEvent) (c : PendingCall)
    (o : CallOutcome) (h : c.settled = some o) :
    (rpcRun c trace).settled = some o := by
  induction trace generalizing c with
  | nil => exact h
  | cons e rest ih =>
    exact ih (rpcStep c e) (rpcStep_settled_stable c e o h)

/-- C7: for an outgoing call registered under `id` — once-listener armed,
timeout pending, promise unsettled — running any event trace settles the
caller's promise with exactly the first matching `RESPONSE`, first matching
`ERROR`, or timeout in the trace (and with nothing if the trace contains
none); every later `RESPONSE` or `ERROR` carrying the same `requestId` is
discarded without effect. -/
theorem c7_call_resolution_unique (id : Nat) (trace : List RpcEvent) :
    (rpcRun (initCall id) trace).settled =
      (trace.find? (isSettler id)).map outcomeOf := by
  induction trace with
  | nil => rfl
  | cons e rest ih =>
    cases he : isSettler id e
    · have hstep : rpcStep (initCall id) e = initCall id := by
        cases e with
        | deliverResponse rid =>
          have hne : ¬(rid = id) := by
            intro hcontra
            simp [isSettler, hcontra] at he
          simp [rpcStep, initCall, hne]
        | deliverError rid =>
          have hne : ¬(rid = id) := by
            intro hcontra
            simp [isSettler, hcontra] at he
          simp [rpcStep, initCall, hne]
        | timeoutFire => simp [isSettler] at he
      rw [rpcRun, List.foldl_cons, hstep, List.find?_cons_of_neg _ (by simp [he])]
      exact ih
    · have hstep : (rpcStep (initCall id) e).settled = some (outcomeOf e) := by
        cases e with
        | deliverResponse rid =>
          simp only [isSettler, beq_iff_eq] at he
          simp [rpcStep, initCall, he, outcomeOf]
        | deliverError rid =>
          simp only [isSettler, beq_iff_eq] at he
          simp [rpcStep, initCall, he, outcomeOf]
        | timeoutFire => simp [rpcStep, initCall, outcomeOf]
      rw [rpcRun, List.foldl_cons, List.find?_cons_of_pos _ he]
      exact (rpcRun_settled_stable rest _ _ hstep).trans rfl

/-! ## Claim C9 -/

theorem dropWhile_zero_length_le (t : List Nat) :
    (t.dropWhile (fun b => b == 0)).length ≤ t.length := by
  induction t with
  | nil => simp
  | cons h2 t2 ih2 =>
    rw [List.dropWhile_cons]
    split
    · exact Nat.le_trans ih2 (Nat.le_succ _)
    · simp

theorem replicate_dropWhile_zero (l : List Nat) :
    List.replicate (l.length - (l.dropWhile (fun b => b == 0)).length) 0 ++
      l.dropWhile (fun b => b == 0) = l := by
  induction l with
  | nil => rfl
  | cons h t ih =>
    rw [List.dropWhile_cons]
    by_cases hz : h = 0
    · subst hz
      simp only [beq_self_eq_true, if_true]
      have hle : (t.dropWhile (fun b => b == 0)).length ≤ t.length :=
        dropWhile_zero_length_le t
      have hlen : (0 :: t).length - (t.dropWhile (fun b => b == 0)).length =
          (t.length - (t.dropWhile (fun b => b == 0)).length) + 1 := by
        simp only [List.length_cons]
        omega
      rw [hlen, List.replicate_succ, List.cons_append, ih]
    · rw [if_neg (by simpa using hz)]
      simp

theorem replicate_minBytes (n : Nat) :
    List.replicate (8 - (minBytes n).length) 0 ++ minBytes n = be8 n := by
  by_cases h0 : n = 0
  · subst h0
    decide
  · rw [minBytes, if_neg h0]
    have h := replicate_dropWhile_zero (be8 n)
    have h8 : (be8 n).length = 8 := rfl
    rw [h8] at h
    exact h

theorem map_complement_be8 (n : Nat) (h : n < 18446744073709551616) :
    (be8 n).map (fun b => 255 - b) = be8 (18446744073709551615 - n) := by
  simp only [be8, List.map_cons, List.map_nil, List.cons.injEq, and_true]
  refine ⟨?_, ?_, ?_, ?_, ?_, ?_, ?_, ?_⟩ <;> omega

/-- C9, as stated, is false at this input: `toBuffer('-1')` produces the
ones-complement bytes `ff..fe` — the two's-complement encoding of `-2`, not
of `-1` (the negative branch writes `255 - b` over an all-`255` buffer and
never adds the carry). -/
theorem c9_counterexample_minus_one :
    int64ToBuffer (-1) = [255, 255, 255, 255, 255, 255, 255, 254] ∧
    twosComplementBE64 (-1) = [255, 255, 255, 255, 255, 255, 255, 255] ∧
    int64ToBuffer (-1) ≠ twosComplementBE64 (-1) := by
  refine ⟨by decide, by decide, by decide⟩

/-- C9 (amended): for decimal strings of magnitude below `2^53` (where
`parseInt` is exact — above that the float parse already loses precision),
the buffer produced for a non-negative value is its 8-byte big-endian signed
encoding, but for a negative value `s` it is the 8-byte big-endian
two's-complement encoding of `s - 1` (the ones' complement of `|s|`), one
less than the value the claim asserts. -/
theorem c9_amended_toBuffer (s : Int)
    (h1 : -9007199254740992 < s) (h2 : s < 9007199254740992) :
    int64ToBuffer s = twosComplementBE64 (if s < 0 then s - 1 else s) := by
  by_cases hneg : s < 0
  · rw [if_pos hneg]
    have hval : ((s - 1) % 18446744073709551616).toNat =
        18446744073709551615 - s.natAbs := by omega
    have hm : s.natAbs < 18446744073709551616 := by omega
    simp only [int64ToBuffer, twosComplementBE64, hneg, if_true, hval]
    have h255 : (255 : Nat) = (fun b => 255 - b) 0 := rfl
    calc
      List.replicate (8 - (minBytes s.natAbs).length) 255 ++
          (minBytes s.natAbs).map (fun b => 255 - b)
        = (List.replicate (8 - (minBytes s.natAbs).length) 0).map
            (fun b => 255 - b) ++
          (minBytes s.natAbs).map (fun b => 255 - b) := by
          rw [List.map_replicate]
      _ = (List.replicate (8 - (minBytes s.natAbs).length) 0 ++
            minBytes s.natAbs).map (fun b => 255 - b) := by
          rw [List.map_append]
      _ = (be8 s.natAbs).map (fun b => 255 - b) := by
          rw [replicate_minBytes]
      _ = be8 (18446744073709551615 - s.natAbs) := map_complement_be8 _ hm
  · rw [if_neg hneg]
    have hval : (s % 18446744073709551616).toNat = s.natAbs := by omega
    simp only [int64ToBuffer, twosComplementBE64, hneg, if_false, hval]
    simpa using replicate_minBytes s.natAbs

/-- Witness for C9 (amended): `toBuffer` at `-300` yields the
two's-complement encoding of `-301`, and at `300` the encoding of `300`. -/
theorem c9_witness :
    int64ToBuffer (-300) = twosComplementBE64 (-301) ∧
    int64ToBuffer 300 = twosComplementBE64 300 := by
  constructor
  · have h := c9_amended_toBuffer (-300) (by decide) (by decide)
    rw [if_pos (by decide : (-300 : Int) < 0)] at h
    norm_num at h
    exact h
  · have h := c9_amended_toBuffer 300 (by decide) (by decide)
    rw [if_neg (by decide : ¬(300 : Int) < 0)] at h
    exact h
